import Mathlib

/-!
Shallow embedding of the clan-battle engine of
`src/client/ybplugins/clan_battle/battle.py` (class `ClanBattle`).

Modelling conventions:
* Python `int` is `Int`; qq identities and group ids are `Nat`.
* The peewee ledger tables (`Clan_challenge`, `Clan_subscribe`) are lists kept
  in insertion order; the auto-increment primary key `cid` therefore coincides
  with list position, so `ORDER BY cid` is the list order and
  `MAX(cid)` selects the last matching list element.
* The in-memory `self._group_data` dict is an association list `Nat × Clan_group`.
* Wall-clock reads (`time.time()`) and the game-calendar conversion
  `pcr_datetime` live outside `src/`; they are passed to each operation as
  explicit arguments (`now`, and the pcr date/time pair `d`, `t`).
* The external `User` rows supply `authority_group`; that value is passed as
  an explicit argument to the operations that read it.
* Exceptions become `Except CBError`; an operation that raises leaves the
  state untouched, so the error constructors carry only the message.
* The opaque JSON `comment` annotations and the thousands-separator number
  formatting in success messages are elided; all control flow, all stored
  fields and all error messages are kept.
-/

/-- The three recoverable error kinds of `clan_battle/exception.py`. -/
inductive CBError where
  | groupError (msg : String)
  | inputError (msg : String)
  | userError (msg : String)
deriving Repr, DecidableEq

/-- One row of the `Clan_group` table / one entry of `self._group_data`. -/
structure Clan_group where
  game_server : String
  level_4 : Bool
  boss_cycle : Int
  boss_num : Int
  boss_health : Int
  challenging_member_qq_id : Option Nat
  challenging_start_time : Int
deriving Repr, DecidableEq

/-- One row of the `Clan_challenge` ledger table. -/
structure Clan_challenge where
  gid : Nat
  qqid : Nat
  challenge_pcrdate : Int
  challenge_pcrtime : Int
  boss_cycle : Int
  boss_num : Int
  boss_health_ramain : Int
  challenge_damage : Int
  is_continue : Bool
deriving Repr, DecidableEq

/-- One row of the `Clan_subscribe` table. -/
structure Clan_subscribe where
  gid : Nat
  qqid : Nat
  subscribe_item : Int
deriving Repr, DecidableEq

/-- The mutable state the engine owns: group dict plus the ledger tables. -/
structure EngineState where
  groups : List (Nat × Clan_group)
  challenges : List Clan_challenge
  subscriptions : List Clan_subscribe
deriving Repr, DecidableEq

/-- The read-only collaborators of the `ClanBattle` object: the stage table
`self.bossinfo` (server → tier → slot-indexed health list), the external
nickname lookup, and the external `pcr_timestamp` conversion. -/
structure ClanBattle where
  bossinfo : String → List (List Int)
  nickname : Nat → Option String
  pcr_timestamp : Int → Int → String → Int

/-- Embeds `self._group_data.get(group_id)`. -/
def getGroup (st : EngineState) (group_id : Nat) : Option Clan_group :=
  (st.groups.find? fun p => p.1 == group_id).map fun p => p.2

/-- Store an updated group object back into the dict (the Python code mutates
the object held in `self._group_data` in place). -/
def setGroup (l : List (Nat × Clan_group)) (group_id : Nat) (g : Clan_group) :
    List (Nat × Clan_group) :=
  l.map fun p => if p.1 == group_id then (group_id, g) else p

/-- Python list indexing with an `Int` index: nonnegative indices from the
front, negative indices from the back.  An out-of-range access raises
`IndexError` in Python; it is modelled as the default `0` (no theorem below
depends on an out-of-range access except where the Python negative-index rule
itself is at stake, and there the index is in range from the back). -/
def pyGet (l : List Int) (i : Int) : Int :=
  if 0 ≤ i then l.getD i.toNat 0
  else l.getD (l.length - (-i).toNat) 0

/-- Embeds `ClanBattle._level_by_cycle` (battle.py lines 93-101). -/
def level_by_cycle (cycle : Int) (level_4 : Bool) : Nat :=
  if cycle ≤ 3 then 0
  else if cycle ≤ 10 then 1
  else if level_4 ∧ 35 ≤ cycle then 3
  else 2

/-- The stage-table read `self.bossinfo[server][self._level_by_cycle(cycle, level_4)][num-1]`. -/
def bossHealthAt (cb : ClanBattle) (server : String) (cycle : Int)
    (level_4 : Bool) (num : Int) : Int :=
  pyGet ((cb.bossinfo server).getD (level_by_cycle cycle level_4) []) (num - 1)

/-- Python truthiness test `if x and P(x)` for `x : Optional[int]`:
`None` and `0` are falsy. -/
def intGuard (x : Option Int) (p : Int → Bool) : Bool :=
  match x with
  | none => false
  | some n => n != 0 && p n

deriving instance DecidableEq for Except

/-- The per-attacker per-battle-day row filter
`gid == group_id AND qqid == qqid AND challenge_pcrdate == d`
used by both `damage` and `defeat`. -/
def dayKey (g q : Nat) (d : Int) (c : Clan_challenge) : Bool :=
  c.gid == g && c.qqid == q && c.challenge_pcrdate == d

/-- The continuation test
`challenges and challenges[-1].boss_health_ramain == 0 and not challenges[-1].is_continue`
(an empty list is falsy in Python). -/
def contFlag (challenges : List Clan_challenge) : Bool :=
  match challenges.getLast? with
  | none => false
  | some last => last.boss_health_ramain == 0 && !last.is_continue

/-- The `BossStatus` value published after every mutation. -/
structure BossStatus where
  boss_cycle : Int
  boss_num : Int
  boss_health : Int
  challenger : Nat
  message : String
deriving Repr, DecidableEq

namespace ClanBattle

/-- Embeds `ClanBattle.damage` (battle.py lines 240-310). -/
def damage (cb : ClanBattle) (st : EngineState) (group_id qqid0 : Nat)
    (dmg : Int) (behalfed : Option Nat) (d t : Int) :
    Except CBError (EngineState × BossStatus) :=
  if dmg < 0 then .error (.inputError ("伤害不可以是负数"))
  else match getGroup st group_id with
  | none => .error (.groupError ("本群未初始化"))
  | some group =>
    if group.boss_health ≤ dmg then
      .error (.inputError ("伤害超出剩余血量，如击败请使用尾刀"))
    else
      let qqid := behalfed.getD qqid0
      let challenges := st.challenges.filter (dayKey group_id qqid d)
      if 3 ≤ challenges.countP (fun c => !c.is_continue) then
        .error (.inputError ("今日上报次数已达到3次"))
      else
        let is_continue : Bool := contFlag challenges
        let challenge : Clan_challenge :=
          { gid := group_id
            qqid := qqid
            challenge_pcrdate := d
            challenge_pcrtime := t
            boss_cycle := group.boss_cycle
            boss_num := group.boss_num
            boss_health_ramain := group.boss_health - dmg
            challenge_damage := dmg
            is_continue := is_continue }
        let group' := { group with
          boss_health := group.boss_health - dmg
          challenging_member_qq_id := none }
        let st' := { st with
          groups := setGroup st.groups group_id group'
          challenges := st.challenges ++ [challenge] }
        let nik := (cb.nickname qqid).getD (toString qqid)
        .ok (st',
          { boss_cycle := group'.boss_cycle
            boss_num := group'.boss_num
            boss_health := group'.boss_health
            challenger := 0
            message := nik ++ "对boss造成了" ++ toString dmg ++ "点伤害" })

/-- Embeds `ClanBattle.defeat` (battle.py lines 312-388), including the
`notify_subscribe` fire-and-delete it triggers (lines 607-632). -/
def defeat (cb : ClanBattle) (st : EngineState) (group_id qqid0 : Nat)
    (behalfed : Option Nat) (d t : Int) :
    Except CBError (EngineState × BossStatus) :=
  match getGroup st group_id with
  | none => .error (.groupError ("本群未初始化"))
  | some group =>
    let qqid := behalfed.getD qqid0
    let challenges := st.challenges.filter (dayKey group_id qqid d)
    if 3 ≤ challenges.countP (fun c => !c.is_continue) then
      .error (.inputError ("今日上报次数已达到3次"))
    else
      let is_continue : Bool := contFlag challenges
      let challenge : Clan_challenge :=
        { gid := group_id
          qqid := qqid
          challenge_pcrdate := d
          challenge_pcrtime := t
          boss_cycle := group.boss_cycle
          boss_num := group.boss_num
          boss_health_ramain := 0
          challenge_damage := group.boss_health
          is_continue := is_continue }
      let boss_num' : Int := if group.boss_num == 5 then 1 else group.boss_num + 1
      let boss_cycle' : Int :=
        if group.boss_num == 5 then group.boss_cycle + 1 else group.boss_cycle
      let health_before := group.boss_health
      let group' := { group with
        boss_num := boss_num'
        boss_cycle := boss_cycle'
        boss_health := bossHealthAt cb group.game_server boss_cycle' group.level_4 boss_num'
        challenging_member_qq_id := none }
      let st' := { st with
        groups := setGroup st.groups group_id group'
        challenges := st.challenges ++ [challenge]
        subscriptions := st.subscriptions.filter fun s =>
          !(s.gid == group_id && (s.subscribe_item == boss_num' || s.subscribe_item == 0)) }
      let nik := (cb.nickname qqid).getD (toString qqid)
      .ok (st',
        { boss_cycle := group'.boss_cycle
          boss_num := group'.boss_num
          boss_health := group'.boss_health
          challenger := 0
          message := nik ++ "对boss造成了" ++ toString health_before ++ "点伤害，击败了boss" })

/-- Embeds `ClanBattle._get_previous_challenge(group_id=...)` (battle.py lines
108-125): the group's record with the largest `cid`, i.e. the last matching
row in insertion order. -/
def _get_previous_challenge (st : EngineState) (group_id : Nat) :
    Option Clan_challenge :=
  (st.challenges.filter fun c => c.gid == group_id).getLast?

/-- Remove the last list element satisfying `p` (the `delete_instance` of the
row `_get_previous_challenge` returned). -/
def eraseLastP (l : List Clan_challenge) (p : Clan_challenge → Bool) :
    List Clan_challenge :=
  (l.reverse.eraseP p).reverse

/-- Embeds `ClanBattle.undo` (battle.py lines 390-430).  `auth` is the requester's
`User.authority_group` read from the external user store. -/
def undo (cb : ClanBattle) (st : EngineState) (group_id qqid : Nat)
    (auth : Int) : Except CBError (EngineState × BossStatus) :=
  match getGroup st group_id with
  | none => .error (.groupError ("本群未初始化"))
  | some _group =>
    match _get_previous_challenge st group_id with
    | none => .error (.groupError ("本群无出刀记录"))
    | some last_challenge =>
      if last_challenge.qqid ≠ qqid ∧ 100 ≤ auth then
        .error (.userError ("无权撤销"))
      else
        let group' := { _group with
          boss_cycle := last_challenge.boss_cycle
          boss_num := last_challenge.boss_num
          boss_health := last_challenge.boss_health_ramain + last_challenge.challenge_damage
          challenging_member_qq_id := none }
        let st' := { st with
          groups := setGroup st.groups group_id group'
          challenges := eraseLastP st.challenges fun c => c.gid == group_id }
        let nik := (cb.nickname last_challenge.qqid).getD (toString last_challenge.qqid)
        .ok (st',
          { boss_cycle := group'.boss_cycle
            boss_num := group'.boss_num
            boss_health := group'.boss_health
            challenger := 0
            message := nik ++ "的出刀记录已被撤销" })

/-- Embeds `ClanBattle.modify` (battle.py lines 432-474).  Note the Python guards
`if cycle and cycle < 1` etc.: a provided value of `0` is falsy and skips
its validation (`intGuard`). -/
def modify (cb : ClanBattle) (st : EngineState) (group_id : Nat)
    (cycle boss_num boss_health : Option Int) :
    Except CBError (EngineState × BossStatus) :=
  if intGuard cycle (fun c => c < 1) then
    .error (.inputError ("周目数不能为负"))
  else if intGuard boss_num (fun n => n < 1 || 5 < n) then
    .error (.inputError ("boss编号必须在1~5间"))
  else if intGuard boss_health (fun h => h < 1) then
    .error (.inputError ("boss生命值不能为负"))
  else match getGroup st group_id with
  | none => .error (.groupError ("本群未初始化"))
  | some group =>
    let group₁ :=
      match cycle with
      | some c => { group with boss_cycle := c }
      | none => group
    let group₂ :=
      match boss_num with
      | some n => { group₁ with boss_num := n }
      | none => group₁
    let health :=
      match boss_health with
      | some h => h
      | none => bossHealthAt cb group₂.game_server group₂.boss_cycle group₂.level_4 group₂.boss_num
    let group₃ := { group₂ with boss_health := health }
    let st' := { st with groups := setGroup st.groups group_id group₃ }
    .ok (st',
      { boss_cycle := group₃.boss_cycle
        boss_num := group₃.boss_num
        boss_health := group₃.boss_health
        challenger := 0
        message := "boss状态已修改" })

/-- Embeds `ClanBattle.restart` (battle.py lines 494-513). -/
def restart (cb : ClanBattle) (st : EngineState) (group_id : Nat) :
    Except CBError EngineState :=
  match getGroup st group_id with
  | none => .error (.groupError ("本群未初始化"))
  | some group =>
    let group' := { group with
      boss_cycle := 1
      boss_num := 1
      boss_health := ((cb.bossinfo group.game_server).getD 0 []).getD 0 0 }
    .ok { st with
      groups := setGroup st.groups group_id group'
      challenges := st.challenges.filter fun c => !(c.gid == group_id) }

/-- Embeds `ClanBattle.boss_status_summary` (battle.py lines 219-238). -/
def boss_status_summary (cb : ClanBattle) (st : EngineState) (group_id : Nat) :
    Except CBError String :=
  match getGroup st group_id with
  | none => .error (.groupError ("本群未初始化"))
  | some group =>
    let base := "现在" ++ toString group.boss_cycle ++ "周目，"
      ++ toString group.boss_num ++ "号boss\n生命值" ++ toString group.boss_health
    .ok (match group.challenging_member_qq_id with
      | none => base
      | some q => base ++ "\n" ++ ((cb.nickname q).getD (toString q)) ++ "正在挑战boss")

/-- Embeds `ClanBattle.add_subscribe` (battle.py lines 533-568). -/
def add_subscribe (st : EngineState) (group_id qqid : Nat) (boss_num : Int) :
    Except CBError EngineState :=
  match getGroup st group_id with
  | none => .error (.groupError ("本群未初始化"))
  | some group =>
    if st.subscriptions.any fun s =>
        s.gid == group_id && s.qqid == qqid && s.subscribe_item == boss_num then
      if boss_num == 0 then .error (.userError ("您已经在树上了"))
      else .error (.userError ("您已经预约过了"))
    else
      let group' :=
        if boss_num == 0 ∧ group.challenging_member_qq_id = some qqid then
          { group with challenging_member_qq_id := none }
        else group
      .ok { st with
        groups := setGroup st.groups group_id group'
        subscriptions := st.subscriptions
          ++ [{ gid := group_id, qqid := qqid, subscribe_item := boss_num }] }

/-- Embeds `ClanBattle.cancel_subscribe` (battle.py lines 591-605): a bare ledger
delete returning the deleted-row count; the function body has no raise path,
so the result is always `.ok`. -/
def cancel_subscribe (st : EngineState) (group_id qqid : Nat) (boss_num : Int) :
    Except CBError (EngineState × Nat) :=
  let is_match := fun (s : Clan_subscribe) =>
    s.gid == group_id && s.qqid == qqid && s.subscribe_item == boss_num
  .ok ({ st with subscriptions := st.subscriptions.filter fun s => !(is_match s) },
       st.subscriptions.countP is_match)

/-- Embeds `ClanBattle.apply_for_challenge` (battle.py lines 634-668).
`now` is the `int(time.time())` wall-clock read. -/
def apply_for_challenge (cb : ClanBattle) (st : EngineState)
    (group_id qqid : Nat) (now : Int) :
    Except CBError (EngineState × BossStatus) :=
  match getGroup st group_id with
  | none => .error (.groupError ("本群未初始化"))
  | some group =>
    match group.challenging_member_qq_id with
    | some holder =>
      .error (.groupError
        ("申请失败，" ++ ((cb.nickname holder).getD (toString holder)) ++ "正在挑战boss"))
    | none =>
      let group' := { group with
        challenging_member_qq_id := some qqid
        challenging_start_time := now }
      .ok ({ st with groups := setGroup st.groups group_id group' },
        { boss_cycle := group'.boss_cycle
          boss_num := group'.boss_num
          boss_health := group'.boss_health
          challenger := qqid
          message := ((cb.nickname qqid).getD (toString qqid)) ++ "已开始boss" })

/-- Embeds `ClanBattle.cancel_application` (battle.py lines 670-712).  `auth` is the
requester's `User.authority_group`; `now` is `int(time.time())`. -/
def cancel_application (cb : ClanBattle) (st : EngineState)
    (group_id qqid : Nat) (auth : Int) (now : Int) :
    Except CBError (EngineState × BossStatus) :=
  match getGroup st group_id with
  | none => .error (.groupError ("本群未初始化"))
  | some group =>
    match group.challenging_member_qq_id with
    | none => .error (.groupError ("没有人正在挑战boss"))
    | some holder =>
      let challenge_duration := now - group.challenging_start_time
      if holder ≠ qqid ∧ 100 ≤ auth ∧ challenge_duration < 180 then
        .error (.groupError
          ("失败，" ++ ((cb.nickname holder).getD (toString holder))
            ++ "在" ++ toString challenge_duration ++ "秒前开始挑战boss"))
      else
        let group' := { group with challenging_member_qq_id := none }
        .ok ({ st with groups := setGroup st.groups group_id group' },
          { boss_cycle := group'.boss_cycle
            boss_num := group'.boss_num
            boss_health := group'.boss_health
            challenger := 0
            message := "boss挑战已可申请" })

/-- One entry of the list `ClanBattle.get_report` returns. -/
structure ReportEntry where
  qqid : Nat
  challenge_time : Int
  cycle : Int
  boss_num : Int
  health_ramain : Int
  damage : Int
  is_continue : Bool
deriving Repr, DecidableEq

/-- Embeds `ClanBattle.get_report` (battle.py lines 714-756); `ORDER BY qqid, cid`
is a stable sort by `qqid` of the insertion-ordered rows. -/
def get_report (cb : ClanBattle) (st : EngineState) (group_id : Nat)
    (qqid : Option Nat) (pcrdate : Option Int) :
    Except CBError (List ReportEntry) :=
  match getGroup st group_id with
  | none => .error (.groupError ("本群未初始化"))
  | some group =>
    let rows := st.challenges.filter fun c =>
      c.gid == group_id
        && (match qqid with | none => true | some q => c.qqid == q)
        && (match pcrdate with | none => true | some pd => c.challenge_pcrdate == pd)
    let sorted := rows.mergeSort fun a b => a.qqid ≤ b.qqid
    .ok (sorted.map fun c =>
      { qqid := c.qqid
        challenge_time := cb.pcr_timestamp c.challenge_pcrdate c.challenge_pcrtime group.game_server
        cycle := c.boss_cycle
        boss_num := c.boss_num
        health_ramain := c.boss_health_ramain
        damage := c.challenge_damage
        is_continue := c.is_continue })

end ClanBattle

/-- The damage/defeat call alphabet for reasoning about arbitrary call
sequences (each call carries its own battle-day pair, as `pcr_datetime`
advances externally). -/
inductive CBAct where
  | damageA (group_id qqid : Nat) (dmg : Int) (behalfed : Option Nat) (d t : Int)
  | defeatA (group_id qqid : Nat) (behalfed : Option Nat) (d t : Int)

/-- Run one call; a raised exception leaves the state unchanged. -/
def runAct (cb : ClanBattle) (st : EngineState) (a : CBAct) : EngineState :=
  match a with
  | .damageA g q dmg b d t =>
    match cb.damage st g q dmg b d t with
    | .ok (st', _) => st'
    | .error _ => st
  | .defeatA g q b d t =>
    match cb.defeat st g q b d t with
    | .ok (st', _) => st'
    | .error _ => st

/-- Run a sequence of damage/defeat calls. -/
def runActs (cb : ClanBattle) (st : EngineState) (acts : List CBAct) : EngineState :=
  acts.foldl (runAct cb) st

/-- Non-continuation record count for one `(group, attacker, battle-day)` key
(the quantity the quota guard of `damage`/`defeat` computes). -/
def nonContCount (l : List Clan_challenge) (g q : Nat) (d : Int) : Nat :=
  (l.filter (dayKey g q d)).countP fun c => !c.is_continue

/-- Spec invariant 4: at most 3 non-continuation records per
`(group, attacker, battle-day)`. -/
def quotaInv (st : EngineState) : Prop :=
  ∀ g q d, nonContCount st.challenges g q d ≤ 3

/-- Spec invariant 2 (amended): every initialized group has `boss_num ∈ [1,5]`,
a positive health, and a health no larger than the stage-table value for its
current `(cycle, slot, hard-mode)` position. -/
def healthInv (cb : ClanBattle) (st : EngineState) : Prop :=
  ∀ g group, getGroup st g = some group →
    1 ≤ group.boss_num ∧ group.boss_num ≤ 5 ∧
    0 < group.boss_health ∧
    group.boss_health ≤
      bossHealthAt cb group.game_server group.boss_cycle group.level_4 group.boss_num

/-- A stage table whose entries (for real slots 1-5) are positive, as every
shipped `boss` configuration is. -/
def goodTable (cb : ClanBattle) : Prop :=
  ∀ s c l4 n, 1 ≤ n → n ≤ 5 → 1 ≤ bossHealthAt cb s c l4 n

/-- A small concrete stage table (4 tiers × 5 slots) for witnesses. -/
def sampleTable : List (List Int) :=
  [[10, 20, 30, 40, 50],
   [11, 21, 31, 41, 51],
   [12, 22, 32, 42, 52],
   [13, 23, 33, 43, 53]]

/-- A concrete engine object for witnesses: the sample table on every server,
no nicknames stored. -/
def cb0 : ClanBattle :=
  { bossinfo := fun _ => sampleTable
    nickname := fun _ => none
    pcr_timestamp := fun _ _ _ => 0 }

/-- A freshly created group on the `cn` server at cycle 1, slot 1. -/
def group0 : Clan_group :=
  { game_server := "cn"
    level_4 := false
    boss_cycle := 1
    boss_num := 1
    boss_health := 10
    challenging_member_qq_id := none
    challenging_start_time := 0 }

/-- A state with the single initialized group `1` and empty ledgers. -/
def st0 : EngineState :=
  { groups := [(1, group0)], challenges := [], subscriptions := [] }

/-- A state with no initialized group at all. -/
def stEmpty : EngineState :=
  { groups := [], challenges := [], subscriptions := [] }

/-- A ledger row: attacker 2 in group 1 dealt 5 on day 0, leaving 5. -/
def recA : Clan_challenge :=
  { gid := 1, qqid := 2, challenge_pcrdate := 0, challenge_pcrtime := 100
    boss_cycle := 1, boss_num := 1, boss_health_ramain := 5
    challenge_damage := 5, is_continue := false }

/-- A second row: attacker 2 dealt 2 more, leaving 3. -/
def recB : Clan_challenge :=
  { gid := 1, qqid := 2, challenge_pcrdate := 0, challenge_pcrtime := 200
    boss_cycle := 1, boss_num := 1, boss_health_ramain := 3
    challenge_damage := 2, is_continue := false }

/-- A third row: attacker 2 finished the boss (a defeat row, remaining 0),
still not a continuation. -/
def recC : Clan_challenge :=
  { gid := 1, qqid := 2, challenge_pcrdate := 0, challenge_pcrtime := 300
    boss_cycle := 1, boss_num := 1, boss_health_ramain := 0
    challenge_damage := 3, is_continue := false }

/-- Group 1 after those three rows: slot 2 of cycle 1, full health 20. -/
def group1 : Clan_group :=
  { group0 with boss_num := 2, boss_health := 20 }

/-- The state in which attacker 2 already has 3 non-continuation records on
day 0, the last one a fresh kill. -/
def st3 : EngineState :=
  { groups := [(1, group1)], challenges := [recA, recB, recC], subscriptions := [] }

/-- A state in which attacker 2 has one record on day 0: a fresh kill. -/
def stK : EngineState :=
  { groups := [(1, group1)], challenges := [recC], subscriptions := [] }

/-- Group 1 while qq 10 holds the challenge slot (claimed at time 0). -/
def groupH : Clan_group :=
  { group0 with challenging_member_qq_id := some 10, challenging_start_time := 0 }

/-- A state with the challenge slot of group 1 held by qq 10. -/
def stH : EngineState :=
  { groups := [(1, groupH)], challenges := [], subscriptions := [] }

/-! ## Helper lemmas -/

theorem find?_map_setGroup (l : List (Nat × Clan_group)) (g : Nat) (v : Clan_group) :
    (setGroup l g v).find? (fun p => p.1 == g) =
      (l.find? (fun p => p.1 == g)).map (fun _ => (g, v)) := by
  induction l with
  | nil => rfl
  | cons a l ih =>
    simp only [setGroup, List.map_cons] at ih ⊢
    by_cases h : a.1 = g
    · have hb : (a.1 == g) = true := by simpa using h
      simp [List.find?, hb]
    · have hb : (a.1 == g) = false := by simpa using h
      simp [List.find?, hb, -List.find?_map]
      simpa using ih

theorem find?_setGroup_other (l : List (Nat × Clan_group)) (g g' : Nat) (v : Clan_group)
    (h : g' ≠ g) :
    (setGroup l g v).find? (fun p => p.1 == g') = l.find? (fun p => p.1 == g') := by
  induction l with
  | nil => rfl
  | cons a l ih =>
    simp only [setGroup, List.map_cons] at ih ⊢
    by_cases ha : a.1 = g
    · have h1 : (a.1 == g) = true := by simpa using ha
      have h3 : (a.1 == g') = false := by
        simp only [beq_eq_false_iff_ne]; rw [ha]; exact Ne.symm h
      have h4 : ((g : Nat) == g') = false := by
        simp only [beq_eq_false_iff_ne]; exact Ne.symm h
      simp [List.find?, h1, h3, h4, -List.find?_map]
      simpa using ih
    · have h1 : (a.1 == g) = false := by simpa using ha
      cases hp : (a.1 == g') with
      | true => simp [List.find?, h1, hp]
      | false =>
        simp [List.find?, h1, hp, -List.find?_map]
        simpa using ih

theorem getGroup_after_set (st st' : EngineState) (g : Nat) (v w : Clan_group)
    (hgr : st'.groups = setGroup st.groups g v)
    (h : getGroup st g = some w) :
    getGroup st' g = some v := by
  unfold getGroup at *
  rw [hgr, find?_map_setGroup]
  cases hf : st.groups.find? (fun p => p.1 == g) with
  | none => rw [hf] at h; cases h
  | some p => simp

theorem getGroup_after_set_ne (st st' : EngineState) (g g' : Nat) (v : Clan_group)
    (hgr : st'.groups = setGroup st.groups g v) (h : g' ≠ g) :
    getGroup st' g' = getGroup st g' := by
  unfold getGroup
  rw [hgr, find?_setGroup_other _ _ _ _ h]

theorem nonContCount_append (l : List Clan_challenge) (r : Clan_challenge)
    (g q : Nat) (d : Int) :
    nonContCount (l ++ [r]) g q d =
      nonContCount l g q d + (if dayKey g q d r ∧ !r.is_continue then 1 else 0) := by
  unfold nonContCount
  rw [List.filter_append, List.countP_append]
  by_cases h : dayKey g q d r
  · by_cases hc : r.is_continue <;>
      simp [h, hc, List.filter, List.countP, List.countP.go]
  · simp [List.filter, h, List.countP, List.countP.go]

theorem eraseLastP_append_of_pos (l : List Clan_challenge)
    (r : Clan_challenge) (p : Clan_challenge → Bool) (h : p r = true) :
    ClanBattle.eraseLastP (l ++ [r]) p = l := by
  unfold ClanBattle.eraseLastP
  rw [List.reverse_append]
  simp [List.eraseP_cons_of_pos h]

theorem level_by_cycle_le_three (c : Int) (l4 : Bool) : level_by_cycle c l4 ≤ 3 := by
  unfold level_by_cycle
  split
  · omega
  · split
    · omega
    · split <;> omega

theorem damage_ok_iff (cb : ClanBattle) (st : EngineState) (g q0 : Nat)
    (dmg : Int) (b : Option Nat) (d t : Int) (st' : EngineState) (bs : BossStatus) :
    cb.damage st g q0 dmg b d t = Except.ok (st', bs) ↔
      ∃ group, getGroup st g = some group ∧ 0 ≤ dmg ∧ dmg < group.boss_health ∧
        nonContCount st.challenges g (b.getD q0) d < 3 ∧
        st' = { st with
          groups := setGroup st.groups g
            { group with
                boss_health := group.boss_health - dmg
                challenging_member_qq_id := none }
          challenges := st.challenges ++
            [{ gid := g
               qqid := b.getD q0
               challenge_pcrdate := d
               challenge_pcrtime := t
               boss_cycle := group.boss_cycle
               boss_num := group.boss_num
               boss_health_ramain := group.boss_health - dmg
               challenge_damage := dmg
               is_continue := contFlag (st.challenges.filter (dayKey g (b.getD q0) d)) }] } ∧
        bs = { boss_cycle := group.boss_cycle
               boss_num := group.boss_num
               boss_health := group.boss_health - dmg
               challenger := 0
               message := ((cb.nickname (b.getD q0)).getD (toString (b.getD q0)))
                 ++ "对boss造成了" ++ toString dmg ++ "点伤害" } := by
  by_cases h0 : dmg < 0
  · simp only [ClanBattle.damage, if_pos h0]
    constructor
    · intro h; exact Except.noConfusion h
    · rintro ⟨group, -, h1, -⟩; omega
  · cases hg : getGroup st g with
    | none =>
      simp only [ClanBattle.damage, if_neg h0, hg]
      constructor
      · intro h; exact Except.noConfusion h
      · rintro ⟨group, hgg, -⟩; exact Option.noConfusion hgg
    | some group =>
      by_cases h1 : group.boss_health ≤ dmg
      · simp only [ClanBattle.damage, if_neg h0, hg, if_pos h1]
        constructor
        · intro h; exact Except.noConfusion h
        · rintro ⟨group2, hgg, -, h2, -⟩
          injection hgg with e
          subst e
          omega
      · by_cases h2 : 3 ≤ (st.challenges.filter (dayKey g (b.getD q0) d)).countP
            (fun c => !c.is_continue)
        · simp only [ClanBattle.damage, if_neg h0, hg, if_neg h1, if_pos h2]
          constructor
          · intro h; exact Except.noConfusion h
          · rintro ⟨group2, hgg, -, -, h3, -⟩
            injection hgg with e
            subst e
            unfold nonContCount at h3
            omega
        · simp only [ClanBattle.damage, if_neg h0, hg, if_neg h1, if_neg h2]
          constructor
          · intro h
            injection h with h
            injection h with hst hbs
            refine ⟨group, rfl, by omega, by omega, ?_, hst.symm, hbs.symm⟩
            unfold nonContCount
            omega
          · rintro ⟨group2, hgg, -, -, -, rfl, rfl⟩
            injection hgg with e
            subst e
            rfl

theorem defeat_ok_iff (cb : ClanBattle) (st : EngineState) (g q0 : Nat)
    (b : Option Nat) (d t : Int) (st' : EngineState) (bs : BossStatus) :
    cb.defeat st g q0 b d t = Except.ok (st', bs) ↔
      ∃ group, getGroup st g = some group ∧
        nonContCount st.challenges g (b.getD q0) d < 3 ∧
        st' = { st with
          groups := setGroup st.groups g
            { group with
                boss_num := if group.boss_num == 5 then 1 else group.boss_num + 1
                boss_cycle :=
                  if group.boss_num == 5 then group.boss_cycle + 1 else group.boss_cycle
                boss_health := bossHealthAt cb group.game_server
                  (if group.boss_num == 5 then group.boss_cycle + 1 else group.boss_cycle)
                  group.level_4
                  (if group.boss_num == 5 then 1 else group.boss_num + 1)
                challenging_member_qq_id := none }
          challenges := st.challenges ++
            [{ gid := g
               qqid := b.getD q0
               challenge_pcrdate := d
               challenge_pcrtime := t
               boss_cycle := group.boss_cycle
               boss_num := group.boss_num
               boss_health_ramain := 0
               challenge_damage := group.boss_health
               is_continue := contFlag (st.challenges.filter (dayKey g (b.getD q0) d)) }]
          subscriptions := st.subscriptions.filter fun s =>
            !(s.gid == g &&
              (s.subscribe_item == (if group.boss_num == 5 then 1 else group.boss_num + 1)
                || s.subscribe_item == 0)) } ∧
        bs = { boss_cycle :=
                 if group.boss_num == 5 then group.boss_cycle + 1 else group.boss_cycle
               boss_num := if group.boss_num == 5 then 1 else group.boss_num + 1
               boss_health := bossHealthAt cb group.game_server
                 (if group.boss_num == 5 then group.boss_cycle + 1 else group.boss_cycle)
                 group.level_4
                 (if group.boss_num == 5 then 1 else group.boss_num + 1)
               challenger := 0
               message := ((cb.nickname (b.getD q0)).getD (toString (b.getD q0)))
                 ++ "对boss造成了" ++ toString group.boss_health ++ "点伤害，击败了boss" } := by
  cases hg : getGroup st g with
  | none =>
    simp only [ClanBattle.defeat, hg]
    constructor
    · intro h; exact Except.noConfusion h
    · rintro ⟨group, hgg, -⟩; exact Option.noConfusion hgg
  | some group =>
    by_cases h2 : 3 ≤ (st.challenges.filter (dayKey g (b.getD q0) d)).countP
        (fun c => !c.is_continue)
    · simp only [ClanBattle.defeat, hg, if_pos h2]
      constructor
      · intro h; exact Except.noConfusion h
      · rintro ⟨group2, hgg, h3, -⟩
        injection hgg with e
        subst e
        unfold nonContCount at h3
        omega
    · simp only [ClanBattle.defeat, hg, if_neg h2]
      constructor
      · intro h
        injection h with h
        injection h with hst hbs
        refine ⟨group, rfl, ?_, hst.symm, hbs.symm⟩
        unfold nonContCount
        omega
      · rintro ⟨group2, hgg, -, rfl, rfl⟩
        injection hgg with e
        subst e
        rfl

theorem damage_quota_error (cb : ClanBattle) (st : EngineState) (g q0 : Nat)
    (dmg : Int) (b : Option Nat) (d t : Int) (group : Clan_group)
    (hg : getGroup st g = some group)
    (hq : 3 ≤ nonContCount st.challenges g (b.getD q0) d) :
    ∃ msg, cb.damage st g q0 dmg b d t = Except.error (CBError.inputError msg) := by
  unfold nonContCount at hq
  by_cases h0 : dmg < 0
  · exact ⟨"伤害不可以是负数", by simp only [ClanBattle.damage, if_pos h0]⟩
  · by_cases h1 : group.boss_health ≤ dmg
    · exact ⟨"伤害超出剩余血量，如击败请使用尾刀",
        by simp only [ClanBattle.damage, if_neg h0, hg, if_pos h1]⟩
    · exact ⟨"今日上报次数已达到3次",
        by simp only [ClanBattle.damage, if_neg h0, hg, if_neg h1, if_pos hq]⟩

theorem defeat_quota_error (cb : ClanBattle) (st : EngineState) (g q0 : Nat)
    (b : Option Nat) (d t : Int) (group : Clan_group)
    (hg : getGroup st g = some group)
    (hq : 3 ≤ nonContCount st.challenges g (b.getD q0) d) :
    cb.defeat st g q0 b d t = Except.error (CBError.inputError ("今日上报次数已达到3次")) := by
  unfold nonContCount at hq
  simp only [ClanBattle.defeat, hg, if_pos hq]

theorem quotaInv_runAct (cb : ClanBattle) (st : EngineState) (a : CBAct)
    (h : quotaInv st) : quotaInv (runAct cb st a) := by
  cases a with
  | damageA g q0 dmg b d t =>
    simp only [runAct]
    cases hres : cb.damage st g q0 dmg b d t with
    | error e => exact h
    | ok p =>
      rcases p with ⟨st', bs⟩
      show quotaInv st'
      rw [damage_ok_iff] at hres
      obtain ⟨group, hg, -, -, hq, hst, -⟩ := hres
      subst hst
      intro g' q' d'
      dsimp only
      rw [nonContCount_append]
      by_cases hk : (dayKey g' q' d'
          { gid := g
            qqid := b.getD q0
            challenge_pcrdate := d
            challenge_pcrtime := t
            boss_cycle := group.boss_cycle
            boss_num := group.boss_num
            boss_health_ramain := group.boss_health - dmg
            challenge_damage := dmg
            is_continue := contFlag (st.challenges.filter (dayKey g (b.getD q0) d)) } : Bool)
      · unfold dayKey at hk
        simp only [Bool.and_eq_true, beq_iff_eq] at hk
        obtain ⟨⟨hg', hq'⟩, hd'⟩ := hk
        subst hg'; subst hq'; subst hd'
        have := h g (b.getD q0) d
        split <;> omega
      · rw [if_neg (by simp [hk])]
        have := h g' q' d'
        omega
  | defeatA g q0 b d t =>
    simp only [runAct]
    cases hres : cb.defeat st g q0 b d t with
    | error e => exact h
    | ok p =>
      rcases p with ⟨st', bs⟩
      show quotaInv st'
      rw [defeat_ok_iff] at hres
      obtain ⟨group, hg, hq, hst, -⟩ := hres
      subst hst
      intro g' q' d'
      dsimp only
      rw [nonContCount_append]
      by_cases hk : (dayKey g' q' d'
          { gid := g
            qqid := b.getD q0
            challenge_pcrdate := d
            challenge_pcrtime := t
            boss_cycle := group.boss_cycle
            boss_num := group.boss_num
            boss_health_ramain := 0
            challenge_damage := group.boss_health
            is_continue := contFlag (st.challenges.filter (dayKey g (b.getD q0) d)) } : Bool)
      · unfold dayKey at hk
        simp only [Bool.and_eq_true, beq_iff_eq] at hk
        obtain ⟨⟨hg', hq'⟩, hd'⟩ := hk
        subst hg'; subst hq'; subst hd'
        have := h g (b.getD q0) d
        split <;> omega
      · rw [if_neg (by simp [hk])]
        have := h g' q' d'
        omega

theorem quotaInv_runActs (cb : ClanBattle) (st : EngineState) (acts : List CBAct)
    (h : quotaInv st) : quotaInv (runActs cb st acts) := by
  induction acts generalizing st with
  | nil => exact h
  | cons a acts ih => exact ih (runAct cb st a) (quotaInv_runAct cb st a h)

theorem healthInv_runAct (cb : ClanBattle) (st : EngineState) (a : CBAct)
    (hT : goodTable cb) (h : healthInv cb st) : healthInv cb (runAct cb st a) := by
  cases a with
  | damageA g q0 dmg b d t =>
    simp only [runAct]
    cases hres : cb.damage st g q0 dmg b d t with
    | error e => exact h
    | ok p =>
      rcases p with ⟨st', bs⟩
      show healthInv cb st'
      rw [damage_ok_iff] at hres
      obtain ⟨group, hg, h0, h1, -, hst, -⟩ := hres
      subst hst
      intro g' group' hg'
      by_cases hgg : g' = g
      · subst hgg
        rw [getGroup_after_set st _ g' _ group rfl hg] at hg'
        injection hg' with e
        subst e
        obtain ⟨hn1, hn2, hh1, hh2⟩ := h g' group hg
        dsimp only
        exact ⟨hn1, hn2, by omega, by omega⟩
      · rw [getGroup_after_set_ne st _ g g' _ rfl hgg] at hg'
        exact h g' group' hg'
  | defeatA g q0 b d t =>
    simp only [runAct]
    cases hres : cb.defeat st g q0 b d t with
    | error e => exact h
    | ok p =>
      rcases p with ⟨st', bs⟩
      show healthInv cb st'
      rw [defeat_ok_iff] at hres
      obtain ⟨group, hg, -, hst, -⟩ := hres
      subst hst
      intro g' group' hg'
      by_cases hgg : g' = g
      · subst hgg
        rw [getGroup_after_set st _ g' _ group rfl hg] at hg'
        injection hg' with e
        subst e
        obtain ⟨hn1, hn2, -, -⟩ := h g' group hg
        by_cases h5 : group.boss_num = 5
        · have hb : (group.boss_num == 5) = true := by simpa using h5
          dsimp only
          simp only [hb, if_true]
          have hpos := hT group.game_server (group.boss_cycle + 1) group.level_4 1
            (by norm_num) (by norm_num)
          exact ⟨by norm_num, by norm_num, by omega, le_refl _⟩
        · have hb : (group.boss_num == 5) = false := by simpa using h5
          dsimp only
          simp only [hb, Bool.false_eq_true, if_false]
          have hpos := hT group.game_server group.boss_cycle group.level_4
            (group.boss_num + 1) (by omega) (by omega)
          exact ⟨by omega, by omega, by omega, le_refl _⟩
      · rw [getGroup_after_set_ne st _ g g' _ rfl hgg] at hg'
        exact h g' group' hg'

theorem healthInv_runActs (cb : ClanBattle) (st : EngineState) (acts : List CBAct)
    (hT : goodTable cb) (h : healthInv cb st) : healthInv cb (runActs cb st acts) := by
  induction acts generalizing st with
  | nil => exact h
  | cons a acts ih => exact ih (runAct cb st a) (healthInv_runAct cb st a hT h)

/-! ## Claims -/

/-- C5: for an initialized group, `damage` fails with `InputError` when the
amount is negative or at least the current boss health, and otherwise (quota
permitting) succeeds with the new health equal to the old health minus exactly
the amount. -/
theorem C5_damage_bounds (cb : ClanBattle) (st : EngineState) (g q0 : Nat)
    (dmg : Int) (b : Option Nat) (d t : Int) (group : Clan_group)
    (hg : getGroup st g = some group) :
    (dmg < 0 → cb.damage st g q0 dmg b d t =
        Except.error (CBError.inputError ("伤害不可以是负数"))) ∧
    (0 ≤ dmg → group.boss_health ≤ dmg →
        cb.damage st g q0 dmg b d t =
          Except.error (CBError.inputError ("伤害超出剩余血量，如击败请使用尾刀"))) ∧
    (0 ≤ dmg → dmg < group.boss_health →
        nonContCount st.challenges g (b.getD q0) d < 3 →
        ∃ st' bs group', cb.damage st g q0 dmg b d t = Except.ok (st', bs) ∧
          getGroup st' g = some group' ∧
          group'.boss_health = group.boss_health - dmg) := by
  refine ⟨?_, ?_, ?_⟩
  · intro h0
    simp only [ClanBattle.damage, if_pos h0]
  · intro h0 h1
    simp only [ClanBattle.damage, if_neg (by omega : ¬ dmg < 0), hg, if_pos h1]
  · intro h0 h1 hq
    refine ⟨_, _, _,
      (damage_ok_iff cb st g q0 dmg b d t _ _).mpr ⟨group, hg, h0, h1, hq, rfl, rfl⟩,
      getGroup_after_set st _ g _ group rfl hg, rfl⟩

/-- Witness for C5 at a concrete input: group 1 at health 10, damage 4. -/
theorem C5_witness :
    ∃ st' bs group', cb0.damage st0 1 2 4 none 0 0 = Except.ok (st', bs) ∧
      getGroup st' 1 = some group' ∧
      group'.boss_health = group0.boss_health - 4 :=
  (C5_damage_bounds cb0 st0 1 2 4 none 0 0 group0 rfl).2.2
    (by norm_num) (by decide) (by decide)

/-- C2: after any sequence of `damage`/`defeat` calls the non-continuation
record count per `(group, attacker, battle-day)` stays at most 3, and with 3
such records any further attempt that day fails with `InputError` leaving the
state unchanged. -/
theorem C2_quota (cb : ClanBattle) (st : EngineState) (acts : List CBAct)
    (hInv : quotaInv st) :
    quotaInv (runActs cb st acts) ∧
    (∀ g q0 dmg b d t group, getGroup st g = some group →
      3 ≤ nonContCount st.challenges g (b.getD q0) d →
      (∃ msg, cb.damage st g q0 dmg b d t = Except.error (CBError.inputError msg)) ∧
      cb.defeat st g q0 b d t =
        Except.error (CBError.inputError ("今日上报次数已达到3次")) ∧
      runAct cb st (CBAct.damageA g q0 dmg b d t) = st ∧
      runAct cb st (CBAct.defeatA g q0 b d t) = st) := by
  refine ⟨quotaInv_runActs cb st acts hInv, ?_⟩
  intro g q0 dmg b d t group hg hq
  obtain ⟨msg, hmsg⟩ := damage_quota_error cb st g q0 dmg b d t group hg hq
  have hdef := defeat_quota_error cb st g q0 b d t group hg hq
  exact ⟨⟨msg, hmsg⟩, hdef, by simp [runAct, hmsg], by simp [runAct, hdef]⟩

/-- Witness for C2: with 3 non-continuation records on day 0 the 4th attempt
of attacker 2 fails with `InputError` and changes nothing. -/
theorem C2_witness :
    (∃ msg, cb0.damage st3 1 2 1 none 0 400 =
        Except.error (CBError.inputError msg)) ∧
    cb0.defeat st3 1 2 none 0 400 =
      Except.error (CBError.inputError ("今日上报次数已达到3次")) ∧
    runAct cb0 st3 (CBAct.damageA 1 2 1 none 0 400) = st3 ∧
    runAct cb0 st3 (CBAct.defeatA 1 2 none 0 400) = st3 :=
  (C2_quota cb0 st3 []
      (fun g q d => le_trans (List.countP_le_length _)
        (le_trans (List.length_filter_le _ _) (by decide)))).2
    1 2 1 none 0 400 group1 rfl (by decide)

/-- C1 (amended): a successful `damage` or `defeat` appends exactly one record,
is only possible with at most 2 prior non-continuation records that battle-day,
flags the record as continuation exactly when the attacker's most recent record
of the day is a kill (`health_remaining = 0`) that is itself not a continuation
(so never two free follow-ups in a row), and a continuation record does not
consume the daily quota.  A would-be continuation attempted with 3
non-continuation records already present is rejected (see the counterexample). -/
theorem C1_continuation (cb : ClanBattle) (st : EngineState) (g q0 : Nat)
    (dmg : Int) (b : Option Nat) (d t : Int) (st' : EngineState) (bs : BossStatus)
    (h : cb.damage st g q0 dmg b d t = Except.ok (st', bs) ∨
         cb.defeat st g q0 b d t = Except.ok (st', bs)) :
    ∃ r, st'.challenges = st.challenges ++ [r] ∧
      nonContCount st.challenges g (b.getD q0) d ≤ 2 ∧
      r.is_continue = contFlag (st.challenges.filter (dayKey g (b.getD q0) d)) ∧
      (∀ last, (st.challenges.filter (dayKey g (b.getD q0) d)).getLast? = some last →
        (r.is_continue = true ↔
          (last.boss_health_ramain = 0 ∧ last.is_continue = false))) ∧
      (r.is_continue = true →
        nonContCount st'.challenges g (b.getD q0) d =
          nonContCount st.challenges g (b.getD q0) d) := by
  rcases h with h | h
  · rw [damage_ok_iff] at h
    obtain ⟨group, hg, -, -, hq, hst, -⟩ := h
    subst hst
    refine ⟨_, rfl, by omega, rfl, ?_, ?_⟩
    · intro last hlast
      dsimp only
      unfold contFlag
      rw [hlast]
      simp [Bool.and_eq_true, beq_iff_eq, Bool.not_eq_true']
    · intro hcont
      dsimp only at hcont ⊢
      rw [nonContCount_append, if_neg (by simp [hcont])]
      omega
  · rw [defeat_ok_iff] at h
    obtain ⟨group, hg, hq, hst, -⟩ := h
    subst hst
    refine ⟨_, rfl, by omega, rfl, ?_, ?_⟩
    · intro last hlast
      dsimp only
      unfold contFlag
      rw [hlast]
      simp [Bool.and_eq_true, beq_iff_eq, Bool.not_eq_true']
    · intro hcont
      dsimp only at hcont ⊢
      rw [nonContCount_append, if_neg (by simp [hcont])]
      omega

/-- Counterexample to C1 as stated: attacker 2 has 3 non-continuation records
on day 0 whose last row is a fresh kill, yet the follow-up `damage`/`defeat`
call is rejected with `InputError` (the quota check runs before the
continuation flag is computed) instead of being accepted as a continuation. -/
theorem C1_cex :
    (st3.challenges.filter (dayKey 1 2 0)).getLast? = some recC ∧
    recC.boss_health_ramain = 0 ∧
    recC.is_continue = false ∧
    nonContCount st3.challenges 1 2 0 = 3 ∧
    cb0.damage st3 1 2 1 none 0 400 =
      Except.error (CBError.inputError ("今日上报次数已达到3次")) ∧
    cb0.defeat st3 1 2 none 0 400 =
      Except.error (CBError.inputError ("今日上报次数已达到3次")) := by decide

/-- Witness for C1's amended theorem: after a single fresh-kill record, the
next `damage` by the same attacker the same day is recorded with
`is_continue = true` and the non-continuation count stays at 1. -/
theorem C1_witness :
    ∃ r, ({ groups := [(1, { group1 with boss_health := 19 })]
            challenges :=
              [recC,
               { gid := 1, qqid := 2, challenge_pcrdate := 0, challenge_pcrtime := 400
                 boss_cycle := 1, boss_num := 2, boss_health_ramain := 19
                 challenge_damage := 1, is_continue := true }]
            subscriptions := [] } : EngineState).challenges
          = stK.challenges ++ [r] ∧
      nonContCount stK.challenges 1 2 0 ≤ 2 ∧
      r.is_continue = contFlag (stK.challenges.filter (dayKey 1 2 0)) ∧
      (∀ last, (stK.challenges.filter (dayKey 1 2 0)).getLast? = some last →
        (r.is_continue = true ↔
          (last.boss_health_ramain = 0 ∧ last.is_continue = false))) ∧
      (r.is_continue = true →
        nonContCount
          ({ groups := [(1, { group1 with boss_health := 19 })]
             challenges :=
               [recC,
                { gid := 1, qqid := 2, challenge_pcrdate := 0, challenge_pcrtime := 400
                  boss_cycle := 1, boss_num := 2, boss_health_ramain := 19
                  challenge_damage := 1, is_continue := true }]
             subscriptions := [] } : EngineState).challenges 1 2 0 =
          nonContCount stK.challenges 1 2 0) :=
  C1_continuation cb0 stK 1 2 1 none 0 400 _
    { boss_cycle := 1, boss_num := 2, boss_health := 19, challenger := 0
      message := "2对boss造成了1点伤害" }
    (Or.inl (by decide))

theorem goodTable_cb0 : goodTable cb0 := by
  intro s c l4 n h1 h5
  have h3 := level_by_cycle_le_three c l4
  unfold bossHealthAt
  simp only [cb0]
  set L := level_by_cycle c l4 with hL
  interval_cases L <;> (interval_cases n <;> decide)

theorem healthInv_st0 : healthInv cb0 st0 := by
  intro g group h
  by_cases hg : g = 1
  · subst hg
    have h0 : getGroup st0 1 = some group0 := rfl
    rw [h0] at h
    injection h with e
    subst e
    exact ⟨by decide, by decide, by decide, by decide⟩
  · have hb : ((1 : Nat) == g) = false := by simpa using (Ne.symm hg)
    have h0 : getGroup st0 g = none := by
      simp [getGroup, st0, List.find?, hb]
    rw [h0] at h
    cases h

/-- C6 (amended): under `damage`/`defeat` sequences from a well-formed state
(positive stage table), every group keeps `0 < health ≤ full_health` of its
current slot; a successful `damage` leaves cycle and slot unchanged and lowers
health by exactly the amount (strictly when the amount is positive, unchanged
when it is 0 — see the counterexample); only a successful `defeat` resets
health to a Stage Table value, and it always advances the slot. -/
theorem C6_health (cb : ClanBattle) (st : EngineState)
    (hT : goodTable cb) (hI : healthInv cb st) :
    (∀ acts, healthInv cb (runActs cb st acts)) ∧
    (∀ g q0 dmg b d t st' bs group group',
        cb.damage st g q0 dmg b d t = Except.ok (st', bs) →
        getGroup st g = some group → getGroup st' g = some group' →
        group'.boss_cycle = group.boss_cycle ∧
        group'.boss_num = group.boss_num ∧
        group'.boss_health = group.boss_health - dmg ∧
        group'.boss_health ≤ group.boss_health ∧
        (0 < dmg → group'.boss_health < group.boss_health)) ∧
    (∀ g q0 b d t st' bs group group',
        cb.defeat st g q0 b d t = Except.ok (st', bs) →
        getGroup st g = some group → getGroup st' g = some group' →
        group'.boss_num ≠ group.boss_num ∧
        group'.boss_health = bossHealthAt cb group.game_server group'.boss_cycle
          group.level_4 group'.boss_num) := by
  refine ⟨fun acts => healthInv_runActs cb st acts hT hI, ?_, ?_⟩
  · intro g q0 dmg b d t st' bs group group' hdam hg hg'
    rw [damage_ok_iff] at hdam
    obtain ⟨group1, hg1, h0, h1, -, hst, -⟩ := hdam
    rw [hg] at hg1
    injection hg1 with e
    subst e
    subst hst
    rw [getGroup_after_set st _ g _ group rfl hg] at hg'
    injection hg' with e
    subst e
    dsimp only
    exact ⟨rfl, rfl, rfl, by omega, by omega⟩
  · intro g q0 b d t st' bs group group' hdef hg hg'
    rw [defeat_ok_iff] at hdef
    obtain ⟨group1, hg1, -, hst, -⟩ := hdef
    rw [hg] at hg1
    injection hg1 with e
    subst e
    subst hst
    rw [getGroup_after_set st _ g _ group rfl hg] at hg'
    injection hg' with e
    subst e
    dsimp only
    refine ⟨?_, rfl⟩
    by_cases h5 : group.boss_num = 5
    · have hb : (group.boss_num == 5) = true := by simpa using h5
      simp only [hb, if_true]
      omega
    · have hb : (group.boss_num == 5) = false := by simpa using h5
      simp only [hb, Bool.false_eq_true, if_false]
      omega

/-- Counterexample to C6 as stated: `damage` with amount 0 succeeds and leaves
the boss health unchanged (group 1 is `group0` with health 10 both before and
after), so health does not strictly decrease on every successful damage call. -/
theorem C6_cex :
    cb0.damage st0 1 2 0 none 0 0 =
      Except.ok
        ({ groups := [(1, group0)]
           challenges :=
             [{ gid := 1, qqid := 2, challenge_pcrdate := 0, challenge_pcrtime := 0
                boss_cycle := 1, boss_num := 1, boss_health_ramain := 10
                challenge_damage := 0, is_continue := false }]
           subscriptions := [] },
         { boss_cycle := 1, boss_num := 1, boss_health := 10, challenger := 0
           message := "2对boss造成了0点伤害" }) ∧
    group0.boss_health = 10 := by decide

/-- Witness for C6: the health invariant is preserved by a concrete
damage-then-defeat sequence from `st0`. -/
theorem C6_witness :
    healthInv cb0 (runActs cb0 st0
      [CBAct.damageA 1 2 3 none 0 0, CBAct.defeatA 1 2 none 0 100]) :=
  (C6_health cb0 st0 goodTable_cb0 healthInv_st0).1
    [CBAct.damageA 1 2 3 none 0 0, CBAct.defeatA 1 2 none 0 100]

/-- C7: a successful `defeat` advances slot 5 to slot 1 of the next cycle and
slot k<5 to slot k+1 of the same cycle, sets the new health to the stage-table
entry for the new position with tier 0 for cycle ≤ 3, tier 1 for cycle ≤ 10,
tier 2 otherwise except tier 3 when hard mode is on and cycle ≥ 35, and clears
the active challenger. -/
theorem C7_defeat_rotation (cb : ClanBattle) (st : EngineState) (g q0 : Nat)
    (b : Option Nat) (d t : Int) (group : Clan_group)
    (hg : getGroup st g = some group)
    (hq : nonContCount st.challenges g (b.getD q0) d < 3) :
    ∃ st' bs group', cb.defeat st g q0 b d t = Except.ok (st', bs) ∧
      getGroup st' g = some group' ∧
      (group.boss_num = 5 →
        group'.boss_num = 1 ∧ group'.boss_cycle = group.boss_cycle + 1) ∧
      (group.boss_num ≠ 5 →
        group'.boss_num = group.boss_num + 1 ∧
        group'.boss_cycle = group.boss_cycle) ∧
      group'.boss_health =
        pyGet ((cb.bossinfo group.game_server).getD
          (if group'.boss_cycle ≤ 3 then 0
           else if group'.boss_cycle ≤ 10 then 1
           else if group.level_4 ∧ 35 ≤ group'.boss_cycle then 3
           else 2) [])
          (group'.boss_num - 1) ∧
      group'.challenging_member_qq_id = none := by
  refine ⟨_, _, _,
    (defeat_ok_iff cb st g q0 b d t _ _).mpr ⟨group, hg, hq, rfl, rfl⟩,
    getGroup_after_set st _ g _ group rfl hg, ?_, ?_, ?_, ?_⟩
  · intro h5
    have hb : (group.boss_num == 5) = true := by simpa using h5
    dsimp only
    simp [hb]
  · intro h5
    have hb : (group.boss_num == 5) = false := by simpa using h5
    dsimp only
    simp [hb]
  · dsimp only
    unfold bossHealthAt level_by_cycle
    rfl
  · rfl

/-- Witness for C7 at `st0`: defeating slot 1 of cycle 1 moves group 1 to
slot 2, same cycle, with the tier-0 table health of slot 2. -/
theorem C7_witness :
    ∃ st' bs group', cb0.defeat st0 1 2 none 0 0 = Except.ok (st', bs) ∧
      getGroup st' 1 = some group' ∧
      (group0.boss_num = 5 →
        group'.boss_num = 1 ∧ group'.boss_cycle = group0.boss_cycle + 1) ∧
      (group0.boss_num ≠ 5 →
        group'.boss_num = group0.boss_num + 1 ∧
        group'.boss_cycle = group0.boss_cycle) ∧
      group'.boss_health =
        pyGet ((cb0.bossinfo group0.game_server).getD
          (if group'.boss_cycle ≤ 3 then 0
           else if group'.boss_cycle ≤ 10 then 1
           else if group0.level_4 ∧ 35 ≤ group'.boss_cycle then 3
           else 2) [])
          (group'.boss_num - 1) ∧
      group'.challenging_member_qq_id = none :=
  C7_defeat_rotation cb0 st0 1 2 none 0 0 group0 rfl (by decide)

theorem getPrev_append (ch : List Clan_challenge) (r : Clan_challenge) (g : Nat)
    (st' : EngineState) (hch : st'.challenges = ch ++ [r]) (hgid : r.gid = g) :
    ClanBattle._get_previous_challenge st' g = some r := by
  unfold ClanBattle._get_previous_challenge
  rw [hch, List.filter_append]
  have hb : (r.gid == g) = true := by simpa using hgid
  simp [List.filter, hb, List.getLast?_concat]

theorem undo_ok (cb : ClanBattle) (st' : EngineState) (g q0 : Nat) (auth : Int)
    (group' : Clan_group) (r : Clan_challenge)
    (hg' : getGroup st' g = some group')
    (hprev : ClanBattle._get_previous_challenge st' g = some r)
    (hq : r.qqid = q0) :
    cb.undo st' g q0 auth = Except.ok
      ({ st' with
          groups := setGroup st'.groups g
            { group' with
                boss_cycle := r.boss_cycle
                boss_num := r.boss_num
                boss_health := r.boss_health_ramain + r.challenge_damage
                challenging_member_qq_id := none }
          challenges := ClanBattle.eraseLastP st'.challenges fun c => c.gid == g },
       { boss_cycle := r.boss_cycle
         boss_num := r.boss_num
         boss_health := r.boss_health_ramain + r.challenge_damage
         challenger := 0
         message := ((cb.nickname r.qqid).getD (toString r.qqid))
           ++ "的出刀记录已被撤销" }) := by
  simp only [ClanBattle.undo, hg', hprev]
  rw [if_neg]
  rintro ⟨hne, -⟩
  exact hne hq

/-- C8: a successful `damage` immediately followed by `undo` by the same
attacker restores `cycle`, `boss_slot` and `health` to their pre-damage
values and deletes the appended record; `undo` on a group with no records
fails with `GroupError`. -/
theorem C8_undo_roundtrip (cb : ClanBattle) (st : EngineState) (g q0 : Nat)
    (dmg : Int) (d t auth : Int) (st' : EngineState) (bs : BossStatus)
    (group : Clan_group) (hg : getGroup st g = some group) :
    (cb.damage st g q0 dmg none d t = Except.ok (st', bs) →
      ∃ st2 bs2 group2, cb.undo st' g q0 auth = Except.ok (st2, bs2) ∧
        getGroup st2 g = some group2 ∧
        group2.boss_cycle = group.boss_cycle ∧
        group2.boss_num = group.boss_num ∧
        group2.boss_health = group.boss_health ∧
        st2.challenges = st.challenges) ∧
    (st.challenges.filter (fun c => c.gid == g) = [] →
      cb.undo st g q0 auth = Except.error (CBError.groupError ("本群无出刀记录"))) := by
  constructor
  · intro hd
    rw [damage_ok_iff] at hd
    obtain ⟨group1, hg1, h0, h1, -, hst, -⟩ := hd
    rw [hg] at hg1
    injection hg1 with e
    subst e
    have hG' := getGroup_after_set st st' g _ group (by rw [hst]) hg
    have hprev := getPrev_append st.challenges _ g st' (by rw [hst]) rfl
    have hundo := undo_ok cb st' g q0 auth _ _ hG' hprev rfl
    refine ⟨_, _, _, hundo, getGroup_after_set st' _ g _ _ rfl hG',
      rfl, rfl, by dsimp only; omega, ?_⟩
    dsimp only
    rw [hst]
    dsimp only
    exact eraseLastP_append_of_pos st.challenges _ _ (by simp)
  · intro hempty
    simp only [ClanBattle.undo, hg]
    have hnone : ClanBattle._get_previous_challenge st g = none := by
      unfold ClanBattle._get_previous_challenge
      rw [hempty]
      rfl
    rw [hnone]

/-- Witness for C8: damage 4 on `st0` then undo restores group 1 to cycle 1,
slot 1, health 10 with an empty ledger; undo directly on `st0` (no records)
fails with `GroupError`. -/
theorem C8_witness :
    (∃ st2 bs2 group2,
      cb0.undo
        { groups := [(1, { group0 with boss_health := 6 })]
          challenges :=
            [{ gid := 1, qqid := 2, challenge_pcrdate := 0, challenge_pcrtime := 0
               boss_cycle := 1, boss_num := 1, boss_health_ramain := 6
               challenge_damage := 4, is_continue := false }]
          subscriptions := [] } 1 2 100 = Except.ok (st2, bs2) ∧
      getGroup st2 1 = some group2 ∧
      group2.boss_cycle = group0.boss_cycle ∧
      group2.boss_num = group0.boss_num ∧
      group2.boss_health = group0.boss_health ∧
      st2.challenges = st0.challenges) ∧
    cb0.undo st0 1 2 100 = Except.error (CBError.groupError ("本群无出刀记录")) :=
  ⟨(C8_undo_roundtrip cb0 st0 1 2 4 0 0 100 _
      { boss_cycle := 1, boss_num := 1, boss_health := 6, challenger := 0
        message := "2对boss造成了4点伤害" } group0 rfl).1 (by decide),
   (C8_undo_roundtrip cb0 st0 1 2 4 0 0 100 st0
      { boss_cycle := 1, boss_num := 1, boss_health := 6, challenger := 0
        message := "2对boss造成了4点伤害" } group0 rfl).2 rfl⟩

/-- C4 (amended): on a group id with no `GroupState`, every exposed operation
except `cancel_subscribe` fails with `GroupError` (given inputs that pass the
operation's own input validation, which runs first for `damage` and `modify`)
and never creates the group; `cancel_subscribe` alone performs its ledger
delete without consulting the group map: it raises nothing and returns the
deleted-row count, also leaving the group map unchanged. -/
theorem C4_unknown_group (cb : ClanBattle) (st : EngineState) (g : Nat)
    (h : getGroup st g = none) (q0 q : Nat) (dmg : Int) (b : Option Nat)
    (d t now auth bn : Int) (oq : Option Nat) (od : Option Int)
    (c n hp : Option Int)
    (hdmg : 0 ≤ dmg)
    (hc : intGuard c (fun x => x < 1) = false)
    (hn : intGuard n (fun x => x < 1 || 5 < x) = false)
    (hh : intGuard hp (fun x => x < 1) = false) :
    cb.damage st g q0 dmg b d t = Except.error (CBError.groupError ("本群未初始化")) ∧
    cb.defeat st g q0 b d t = Except.error (CBError.groupError ("本群未初始化")) ∧
    cb.undo st g q auth = Except.error (CBError.groupError ("本群未初始化")) ∧
    cb.modify st g c n hp = Except.error (CBError.groupError ("本群未初始化")) ∧
    cb.restart st g = Except.error (CBError.groupError ("本群未初始化")) ∧
    cb.apply_for_challenge st g q now =
      Except.error (CBError.groupError ("本群未初始化")) ∧
    cb.cancel_application st g q auth now =
      Except.error (CBError.groupError ("本群未初始化")) ∧
    ClanBattle.add_subscribe st g q bn =
      Except.error (CBError.groupError ("本群未初始化")) ∧
    cb.boss_status_summary st g = Except.error (CBError.groupError ("本群未初始化")) ∧
    cb.get_report st g oq od = Except.error (CBError.groupError ("本群未初始化")) ∧
    ClanBattle.cancel_subscribe st g q bn =
      Except.ok
        ({ st with subscriptions := st.subscriptions.filter fun s =>
            !(s.gid == g && s.qqid == q && s.subscribe_item == bn) },
         st.subscriptions.countP fun s =>
           s.gid == g && s.qqid == q && s.subscribe_item == bn) := by
  refine ⟨?_, ?_, ?_, ?_, ?_, ?_, ?_, ?_, ?_, ?_, rfl⟩
  · simp only [ClanBattle.damage, if_neg (by omega : ¬ dmg < 0), h]
  · simp only [ClanBattle.defeat, h]
  · simp only [ClanBattle.undo, h]
  · simp only [ClanBattle.modify, hc, hn, hh, Bool.false_eq_true, if_false, h]
  · simp only [ClanBattle.restart, h]
  · simp only [ClanBattle.apply_for_challenge, h]
  · simp only [ClanBattle.cancel_application, h]
  · simp only [ClanBattle.add_subscribe, h]
  · simp only [ClanBattle.boss_status_summary, h]
  · simp only [ClanBattle.get_report, h]

/-- Counterexample to C4 as stated: cancelling a subscription for the
uninitialized group 1 does not raise `GroupError` (or anything): it returns
success with a deleted-row count of 0. -/
theorem C4_cex :
    ClanBattle.cancel_subscribe stEmpty 1 2 0 = Except.ok (stEmpty, 0) ∧
    getGroup stEmpty 1 = none := by decide

/-- Witness for C4 on the empty state: `damage` on the unknown group 1 fails
with `GroupError`. -/
theorem C4_witness :
    cb0.damage stEmpty 1 2 0 none 0 0 =
      Except.error (CBError.groupError ("本群未初始化")) :=
  (C4_unknown_group cb0 stEmpty 1 rfl 2 3 0 none 0 0 0 0 0 none none
    none none none (by norm_num) rfl rfl rfl).1

/-- C9 (amended): cancelling the challenge slot fails with `GroupError` when it
is free; the holder may always cancel immediately; a non-holder whose
`authority_group` is ≥ 100 is rejected with a `GroupError` reporting the
elapsed seconds unless the claim is at least 180 seconds old, in which case
the cancel succeeds and frees the slot.  (A non-holder with
`authority_group` < 100 bypasses the window entirely — see the
counterexample and C10.) -/
theorem C9_cancel_slot (cb : ClanBattle) (st : EngineState) (g q : Nat)
    (auth now : Int) (group : Clan_group) (hg : getGroup st g = some group) :
    (group.challenging_member_qq_id = none →
      cb.cancel_application st g q auth now =
        Except.error (CBError.groupError ("没有人正在挑战boss"))) ∧
    (∀ holder, group.challenging_member_qq_id = some holder →
      (holder = q →
        ∃ st' bs, cb.cancel_application st g q auth now = Except.ok (st', bs) ∧
          getGroup st' g = some { group with challenging_member_qq_id := none }) ∧
      (holder ≠ q → 100 ≤ auth → now - group.challenging_start_time < 180 →
        cb.cancel_application st g q auth now =
          Except.error (CBError.groupError
            ("失败，" ++ ((cb.nickname holder).getD (toString holder)) ++ "在"
              ++ toString (now - group.challenging_start_time)
              ++ "秒前开始挑战boss"))) ∧
      (holder ≠ q → 180 ≤ now - group.challenging_start_time →
        ∃ st' bs, cb.cancel_application st g q auth now = Except.ok (st', bs) ∧
          getGroup st' g = some { group with challenging_member_qq_id := none })) := by
  constructor
  · intro hfree
    simp only [ClanBattle.cancel_application, hg, hfree]
  · intro holder hh
    refine ⟨?_, ?_, ?_⟩
    · intro he
      simp only [ClanBattle.cancel_application, hg, hh]
      rw [if_neg (by rintro ⟨hne, -⟩; exact hne he)]
      exact ⟨_, _, rfl, getGroup_after_set st _ g _ group rfl hg⟩
    · intro hne ha hd
      simp only [ClanBattle.cancel_application, hg, hh]
      rw [if_pos ⟨hne, ha, hd⟩]
    · intro hne hd
      simp only [ClanBattle.cancel_application, hg, hh]
      rw [if_neg (by rintro ⟨-, -, hlt⟩; omega)]
      exact ⟨_, _, rfl, getGroup_after_set st _ g _ group rfl hg⟩

/-- Counterexample to C9 as stated: in `stH` qq 10 holds the slot, claimed 0
seconds ago; the non-holder qq 11 with `authority_group = 10` (below 100)
cancels immediately and successfully, where the claim requires rejection with
`GroupError` before 180 seconds have passed. -/
theorem C9_cex :
    cb0.cancel_application stH 1 11 10 0 =
      Except.ok (st0,
        { boss_cycle := 1, boss_num := 1, boss_health := 10, challenger := 0
          message := "boss挑战已可申请" }) ∧
    groupH.challenging_member_qq_id = some 10 ∧
    (10 : Nat) ≠ 11 ∧
    (0 : Int) - groupH.challenging_start_time < 180 := by decide

/-- Witness for C9: the ordinary (authority 150) non-holder qq 11 cancelling 0
seconds into qq 10's claim is rejected with the `GroupError` reporting the
elapsed time. -/
theorem C9_witness :
    cb0.cancel_application stH 1 11 150 0 =
      Except.error (CBError.groupError
        ("失败，" ++ ((cb0.nickname 10).getD (toString 10)) ++ "在"
          ++ toString ((0 : Int) - groupH.challenging_start_time)
          ++ "秒前开始挑战boss")) :=
  ((C9_cancel_slot cb0 stH 1 11 150 0 groupH rfl).2 10 rfl).2.1
    (by decide) (by norm_num) (by decide)

/-- C10: a non-holder whose `authority_group` is below 100 (elevated
privilege) can always cancel the held challenge slot immediately, regardless
of how long the claim has been held; the 180-second window only applies to
non-holders with `authority_group` ≥ 100 (that side is in C9's theorem). -/
theorem C10_admin_cancel (cb : ClanBattle) (st : EngineState) (g q : Nat)
    (auth now : Int) (group : Clan_group) (holder : Nat)
    (hg : getGroup st g = some group)
    (hh : group.challenging_member_qq_id = some holder)
    (_hne : holder ≠ q) (hauth : auth < 100) :
    ∃ st' bs, cb.cancel_application st g q auth now = Except.ok (st', bs) ∧
      getGroup st' g = some { group with challenging_member_qq_id := none } := by
  simp only [ClanBattle.cancel_application, hg, hh]
  rw [if_neg (by rintro ⟨-, ha, -⟩; omega)]
  exact ⟨_, _, rfl, getGroup_after_set st _ g _ group rfl hg⟩

/-- Witness for C10: the non-holder qq 11 with authority 10 cancels qq 10's
fresh claim immediately and the slot is freed. -/
theorem C10_witness :
    ∃ st' bs, cb0.cancel_application stH 1 11 10 0 = Except.ok (st', bs) ∧
      getGroup st' 1 = some { groupH with challenging_member_qq_id := none } :=
  C10_admin_cancel cb0 stH 1 11 10 0 groupH 10 rfl rfl
    (by norm_num) (by norm_num)

/-- C3 (code bug): `modify` with the provided out-of-range `boss_slot = 0`
does not fail with `InputError` — the Python guard
`if boss_num and (boss_num < 1 or boss_num > 5)` treats the provided `0` as
falsy and skips validation — so the call succeeds, stores `boss_num = 0`
(outside the documented 1~5 range of the code's own error message), and the
omitted-health recomputation indexes the stage table at `0 - 1 = -1`, i.e.
Python wraps to the slot-5 entry (50 in the sample table). -/
theorem C3_modify_accepts_zero :
    cb0.modify st0 1 none (some 0) none =
      Except.ok
        ({ groups := [(1, { group0 with boss_num := 0, boss_health := 50 })]
           challenges := [], subscriptions := [] },
         { boss_cycle := 1, boss_num := 0, boss_health := 50, challenger := 0
           message := "boss状态已修改" }) := by decide
